import Mathlib

/-!
Verification of the socketbrowser discovery/invocation client and the
hybrid-mode navigation state machine, shallowly embedded from the
JavaScript sources (src/api/discovery.js, the API client, the
hybrid renderer and the main application module).
-/

namespace SocketBrowser

/-- Model of the JavaScript `String.prototype.includes` on character lists:
returns true when the second list occurs as a contiguous infix of the first. -/
def jsIncludesL : List Char → List Char → Bool
  | [], pat => pat.isEmpty
  | c :: rest, pat => pat.isPrefixOf (c :: rest) || jsIncludesL rest pat

/-- Model of the JavaScript `String.prototype.replace` with a (nonempty)
string pattern: only the first occurrence of the pattern is replaced. -/
def jsReplaceFirst : List Char → List Char → List Char → List Char
  | [], _, _ => []
  | c :: rest, pat, repl =>
    if pat.isPrefixOf (c :: rest) then repl ++ (c :: rest).drop pat.length
    else c :: jsReplaceFirst rest pat repl

/-- JavaScript truthiness of a possibly-absent string value
(`undefined` and the empty string are falsy). -/
def jsTruthyStr : Option String → Bool
  | none => false
  | some s => !(s == "")

/-- JavaScript `a || b` for a possibly-absent string `a` with default `b`. -/
def jsOrStr (a : Option String) (b : String) : String :=
  match a with
  | none => b
  | some s => if s == "" then b else s

/-- JavaScript template-literal rendering of a possibly-absent string
(absent values print as the text undefined). -/
def jsTemplateStr (a : Option String) : String :=
  match a with
  | none => "undefined"
  | some s => s

/-- Model of `baseUrl.replace(/\/$/, '')` and of
`baseUrl.endsWith('/') ? baseUrl.slice(0, -1) : baseUrl`:
strip a single trailing slash. -/
def jsStripTrailingSlash (s : String) : String :=
  if s.data.getLast? = some '/' then String.mk s.data.dropLast else s

/-- Model of `method.toLowerCase()` on the ASCII method strings the code
uses. -/
def jsToLower (s : String) : String :=
  String.mk (s.data.map Char.toLower)

/-- One endpoint object of a discovery payload, with the fields the code
reads; each field may be absent as in the dynamic JS objects. -/
structure EndpointJs where
  operationId : Option String
  method : Option String
  path : Option String
  deriving DecidableEq

/-- A discovery payload / descriptor object, with the fields the code reads. -/
structure Payload where
  name : Option String
  description : Option String
  baseUrl : Option String
  endpoints : Option (List EndpointJs)
  deriving DecidableEq

/-- JavaScript truthiness of a possibly-absent array value
(arrays, including empty ones, are truthy). -/
def jsTruthyList (l : Option (List EndpointJs)) : Bool :=
  l.isSome

/-- Outcome of the axios GET against the discovery URL, as distinguished by
the catch block of `discoverSocketAgent` in src/api/discovery.js. -/
inductive AxiosOutcome where
  | ok (data : Payload)
  | connRefused
  | httpError (status : Nat) (statusText : String)
  | hostNotFound
  | otherFailure (msg : String)

/-- Embedding of `discoverSocketAgent` (src/api/discovery.js): normalize the
URL, probe the well-known endpoint (outcome supplied as `net`), validate the
payload, patch `baseUrl`, and map every failure to the thrown error message.
The in-try validation throw is re-wrapped by the catch block into the generic
message, which is the message the spec taxonomy calls InvalidPayload. -/
def discoverSocketAgent (baseUrl : String) (net : AxiosOutcome) : Except String Payload :=
  let url := jsStripTrailingSlash baseUrl
  match net with
  | .ok data =>
    if !(jsTruthyStr data.name) || !(jsTruthyList data.endpoints) then
      .error "Discovery failed: Invalid Socket Agent descriptor: missing required fields"
    else
      .ok { data with baseUrl := if jsTruthyStr data.baseUrl then data.baseUrl else some url }
  | .connRefused =>
    .error ("Cannot connect to " ++ baseUrl ++ ". Is the server running?")
  | .httpError status statusText =>
    if status == 404 then
      .error ("No Socket Agent API found at " ++ baseUrl ++ ". Make sure it's a Socket Agent compliant API.")
    else
      .error ("HTTP " ++ toString status ++ ": " ++ statusText)
  | .hostNotFound =>
    .error ("Cannot resolve hostname: " ++ baseUrl)
  | .otherFailure msg =>
    .error ("Discovery failed: " ++ msg)

/-- Embedding of `validateDescriptor` (src/api/discovery.js): presence check
of the two required fields via hasOwnProperty. -/
def validateDescriptor (d : Payload) : Bool :=
  d.name.isSome && d.endpoints.isSome

/-- The predicate tested for each endpoint by `getEndpoint`
(src/api/discovery.js): a single disjunction of the three equality tests,
with template-literal rendering of possibly-absent method and path. -/
def epMatches (endpointId : String) (ep : EndpointJs) : Bool :=
  ep.operationId == some endpointId ||
  ep.path == some endpointId ||
  ((jsTemplateStr ep.method ++ ":" ++ jsTemplateStr ep.path) == endpointId)

/-- Embedding of `getEndpoint` (src/api/discovery.js):
`descriptor.endpoints.find(...)`. The source assumes `endpoints` is present
at every call site; an absent field is modelled as the empty list. -/
def getEndpoint (descriptor : Payload) (endpointId : String) : Option EndpointJs :=
  (descriptor.endpoints.getD []).find? (epMatches endpointId)

/-- Result object of the discovery IPC bridge as read by the renderer:
a success flag and a possibly-absent descriptor. -/
structure DiscIpcResult where
  success : Bool
  descriptor : Option Payload
  deriving DecidableEq

/-- Result of mode detection: the mode string and the descriptor carried
along in socket-agent mode. -/
structure ModeResult where
  mode : String
  descriptor : Option Payload
  deriving DecidableEq

/-- Embedding of `HybridRenderer.detectMode`
(src/renderer/hybrid-renderer.js): the awaited discovery call either rejects
(`Except.error`, caught by the try block) or resolves to a result object;
socket-agent mode is returned only for a truthy success flag together with a
truthy descriptor, and every other case falls through to html mode. -/
def detectMode (r : Except String DiscIpcResult) : ModeResult :=
  match r with
  | .error _ => { mode := "html", descriptor := none }
  | .ok res =>
    if res.success && res.descriptor.isSome then
      { mode := "socket-agent", descriptor := res.descriptor }
    else
      { mode := "html", descriptor := none }

/-- Accumulator of the parameter-classification loop of `callAPI`
(the API client module): the three parameter buckets and the progressively
substituted path. -/
structure ClassState where
  pathParams : List (String × String)
  queryParams : List (String × String)
  bodyParams : List (String × String)
  finalPath : List Char
  deriving DecidableEq

/-- One iteration of the `Object.entries(params).forEach` loop of `callAPI`:
a key whose placeholder occurs in the current `finalPath` (or the vestigial
id-placeholder disjunct) is a path parameter and is substituted at its first
occurrence; otherwise the key is a query parameter for GET or DELETE and a
body field for every other method. -/
def classifyStep (method : String) (acc : ClassState) (kv : String × String) : ClassState :=
  let pat := ("\x7b" ++ kv.1 ++ "\x7d").data
  if jsIncludesL acc.finalPath pat ||
     (jsIncludesL acc.finalPath ("\x7bid\x7d").data && kv.1 == "id") then
    { acc with pathParams := acc.pathParams ++ [kv],
               finalPath := jsReplaceFirst acc.finalPath pat kv.2.data }
  else if method == "GET" || method == "DELETE" then
    { acc with queryParams := acc.queryParams ++ [kv] }
  else
    { acc with bodyParams := acc.bodyParams ++ [kv] }

/-- The request `callAPI` assembles for axios: lower-cased method, concrete
URL, query parameters, body fields, and whether the JSON content-type header
is attached. Empty query and body lists correspond to the config keys being
left unset. -/
structure RequestConfig where
  method : String
  url : String
  queryParams : List (String × String)
  bodyParams : List (String × String)
  hasJsonContentType : Bool
  deriving DecidableEq

/-- Embedding of `callAPI` (the API client module) up to the point the axios
request is issued: resolve the endpoint reference against the descriptor when
one is supplied (falling back to method GET and the reference as literal
path), classify and substitute parameters, and build the request. -/
def callAPI (baseUrl endpointId : String) (params : List (String × String))
    (descriptor : Option Payload) : RequestConfig :=
  let mp : String × String :=
    match descriptor with
    | some d =>
      match getEndpoint d endpointId with
      | some ep => (jsOrStr ep.method "GET", jsOrStr ep.path endpointId)
      | none => ("GET", endpointId)
    | none => ("GET", endpointId)
  let method := mp.1
  let cls := params.foldl (classifyStep method)
    { pathParams := [], queryParams := [], bodyParams := [], finalPath := mp.2.data }
  { method := jsToLower method,
    url := jsStripTrailingSlash baseUrl ++ String.mk cls.finalPath,
    queryParams := cls.queryParams,
    bodyParams := cls.bodyParams,
    hasJsonContentType :=
      !(method == "GET") && !(method == "DELETE") && !cls.bodyParams.isEmpty }

/-- Screen states of the main application window, as driven by the ui module
helpers: the welcome screen, the loading overlay, the generated interface,
and the error display are mutually exclusive surfaces. -/
inductive Screen where
  | welcome
  | loading
  | active
  | error
  deriving DecidableEq

/-- One history entry pushed by `navigateTo` in the main application module:
the visited URL and the descriptor discovery returned for it. -/
structure Entry where
  url : String
  descriptor : Option Payload
  deriving DecidableEq

/-- The application state object of the main application module, together
with the screen shown by the ui helpers and the url input field content. -/
structure NavState where
  currentUrl : Option String
  descriptor : Option Payload
  history : List Entry
  historyIndex : Int
  accessToken : Option String
  refreshToken : Option String
  screen : Screen
  urlInput : String
  deriving DecidableEq

/-- Outcome of one `generateWebsite` call as observed by `generateUI`:
either generated html or a failure carrying the error message
(covering both a rejected promise and a result with a false success flag). -/
inductive GenOutcome where
  | ok (html : String)
  | err (msg : String)
  deriving DecidableEq

/-- Result object of the token-refresh call made inside `generateUI`. -/
structure RefreshResult where
  success : Bool
  access_token : String
  refresh_token : String
  deriving DecidableEq

/-- Embedding of `generateUI` (the main application module). The outcomes of
the successive `generateWebsite` calls are supplied in `gens` (one entry is
consumed per call; the retry after a successful token refresh consumes the
next) and the refresh-call outcome in `rr`. Without an access token the error
screen asking to sign in is shown; a successful generation installs the
markup (active screen); a failure mentioning authentication attempts the
refresh-and-retry dance and every other failure shows the error screen.
An exhausted `gens` list leaves the state unchanged; the source always
obtains one more outcome, so that case is never exercised by the theorems. -/
def generateUI (s : NavState) (descriptor : Option Payload) (gens : List GenOutcome)
    (rr : Except String RefreshResult) : NavState :=
  if !(jsTruthyStr s.accessToken) then
    { s with screen := .error }
  else
    match gens with
    | [] => s
    | .ok _ :: _ => { s with screen := .active }
    | .err msg :: rest =>
      if jsIncludesL msg.data ("Authentication failed").data then
        if jsTruthyStr s.refreshToken then
          match rr with
          | .ok r =>
            if r.success then
              generateUI
                { s with accessToken := some r.access_token,
                         refreshToken := some r.refresh_token }
                descriptor rest rr
            else { s with screen := .error }
          | .error _ =>
            { s with accessToken := none, refreshToken := none, screen := .error }
        else { s with screen := .error }
      else { s with screen := .error }

/-- Result object of the discovery call awaited by `navigateTo`. -/
structure DiscResult where
  success : Bool
  descriptor : Option Payload
  deriving DecidableEq

/-- The part of `navigateTo` that runs before its await of the discovery
call: the ui shows the loading overlay. -/
def navStart (s : NavState) : NavState :=
  { s with screen := .loading }

/-- The continuation of `navigateTo` after its discovery await resolves
(`disc` is a rejection or the result object). A rejected or unsuccessful
discovery is caught and shows the error screen, leaving everything else
untouched. A successful one commits descriptor and current URL, truncates
the forward part of the history when the index is not at the last entry,
appends the new entry, points the index at it, and enters `generateUI`. -/
def navResume (s : NavState) (url : String) (disc : Except String DiscResult)
    (gens : List GenOutcome) (rr : Except String RefreshResult) : NavState :=
  match disc with
  | .error _ => { s with screen := .error }
  | .ok r =>
    if !r.success then
      { s with screen := .error }
    else
      let s1 := { s with descriptor := r.descriptor, currentUrl := some url }
      let hist :=
        if s1.historyIndex < (s1.history.length : Int) - 1 then
          s1.history.take (s1.historyIndex + 1).toNat
        else s1.history
      let hist2 := hist ++ [{ url := url, descriptor := r.descriptor }]
      let s2 := { s1 with history := hist2, historyIndex := (hist2.length : Int) - 1 }
      generateUI s2 r.descriptor gens rr

/-- Embedding of `navigateTo` (the main application module) as one synchronous
run: the pre-await part followed by the continuation. -/
def navigateTo (s : NavState) (url : String) (disc : Except String DiscResult)
    (gens : List GenOutcome) (rr : Except String RefreshResult) : NavState :=
  navResume (navStart s) url disc gens rr

/-- Embedding of `handleBack` (the main application module): when the index
is positive, decrement it, restore URL and descriptor from the entry at the
new index, mirror the URL into the input field, and regenerate the interface.
The out-of-range default entry is never read under the history invariant. -/
def handleBack (s : NavState) (gens : List GenOutcome)
    (rr : Except String RefreshResult) : NavState :=
  if 0 < s.historyIndex then
    let i := s.historyIndex - 1
    let entry := s.history.getD i.toNat { url := "", descriptor := none }
    generateUI
      { s with historyIndex := i, currentUrl := some entry.url,
               descriptor := entry.descriptor, urlInput := entry.url }
      entry.descriptor gens rr
  else s

/-- Embedding of `handleForward` (the main application module): when the
index is below the last entry, increment it and replay that entry the same
way `handleBack` does. -/
def handleForward (s : NavState) (gens : List GenOutcome)
    (rr : Except String RefreshResult) : NavState :=
  if s.historyIndex < (s.history.length : Int) - 1 then
    let i := s.historyIndex + 1
    let entry := s.history.getD i.toNat { url := "", descriptor := none }
    generateUI
      { s with historyIndex := i, currentUrl := some entry.url,
               descriptor := entry.descriptor, urlInput := entry.url }
      entry.descriptor gens rr
  else s

/-- Embedding of `handleHome` (the main application module): clear the
current URL, descriptor and input field and show the welcome screen. History
and index are not touched. -/
def handleHome (s : NavState) : NavState :=
  { s with currentUrl := none, descriptor := none, urlInput := "",
           screen := .welcome }

/-- The history invariant stated by the spec for NavigationState. -/
def Invariant (s : NavState) : Prop :=
  -1 ≤ s.historyIndex ∧ s.historyIndex < (s.history.length : Int)

instance (s : NavState) : Decidable (Invariant s) := by
  unfold Invariant
  infer_instance

/-- Descriptor served by origin X in the staleness scenario. -/
def c1dX : Payload :=
  { name := some "X API", description := none, baseUrl := some "http://x", endpoints := some [] }

/-- Descriptor served by origin Y in the staleness scenario. -/
def c1dY : Payload :=
  { name := some "Y API", description := none, baseUrl := some "http://y", endpoints := some [] }

/-- Initial application state of the staleness scenario: fresh session with
an access token so that generation succeeds. -/
def c1s0 : NavState :=
  { currentUrl := none, descriptor := none, history := [], historyIndex := -1,
    accessToken := some "tok", refreshToken := none, screen := .welcome, urlInput := "" }

/-- The state after both navigations started (two pre-await segments ran) and
the second navigation, to Y, fully resolved and committed. -/
def c1afterY : NavState :=
  navResume (navStart (navStart c1s0)) "http://y"
    (.ok { success := true, descriptor := some c1dY }) [.ok "y html"] (.error "unused")

/-- The final state after the first navigation, to X, resolves late: its
continuation runs against the state Y committed. -/
def c1final : NavState :=
  navResume c1afterY "http://x"
    (.ok { success := true, descriptor := some c1dX }) [.ok "x html"] (.error "unused")

/-- Endpoint whose path equals the reference string X. -/
def c2e1 : EndpointJs :=
  { operationId := some "other_op", method := some "GET", path := some "X" }

/-- Endpoint whose operationId equals the reference string X. -/
def c2e2 : EndpointJs :=
  { operationId := some "X", method := some "GET", path := some "/y" }

/-- Descriptor listing the path-matching endpoint before the
operationId-matching one. -/
def c2d : Payload :=
  { name := some "API", description := none, baseUrl := none, endpoints := some [c2e1, c2e2] }

/-- Descriptor used in the failed-generation scenario. -/
def c3d : Payload :=
  { name := some "U API", description := none, baseUrl := some "http://u", endpoints := some [] }

/-- Initial application state of the failed-generation scenario. -/
def c3s0 : NavState :=
  { currentUrl := none, descriptor := none, history := [], historyIndex := -1,
    accessToken := some "tok", refreshToken := none, screen := .welcome, urlInput := "" }

/-- A navigation whose discovery succeeds and whose UI generation fails. -/
def c3run : NavState :=
  navigateTo c3s0 "http://u" (.ok { success := true, descriptor := some c3d })
    [.err "generation exploded"] (.error "unused")

/-- Application state with a two-entry history at index 1, used to observe
what the home button does. -/
def c4ex : NavState :=
  { currentUrl := some "b", descriptor := none,
    history := [{ url := "a", descriptor := none }, { url := "b", descriptor := none }],
    historyIndex := 1, accessToken := some "t", refreshToken := none,
    screen := .active, urlInput := "b" }

/-- Descriptor discovered for page D in the truncation example. -/
def c5d : Payload :=
  { name := some "D API", description := none, baseUrl := some "http://d", endpoints := some [] }

/-- Application state with history A, B, C at index 1 (after one back step),
the starting point of the truncation example. -/
def c5s : NavState :=
  { currentUrl := some "b", descriptor := none,
    history := [{ url := "a", descriptor := none }, { url := "b", descriptor := none },
                { url := "c", descriptor := none }],
    historyIndex := 1, accessToken := some "t", refreshToken := none,
    screen := .active, urlInput := "b" }

/-- The truncation example run: navigating to D from history A, B, C at
index 1. -/
def c5run : NavState :=
  navigateTo c5s "d" (.ok { success := true, descriptor := some c5d })
    [.ok "d html"] (.error "unused")

/-- Application state with history at index 1 of 2 entries, used to exercise
the back-then-forward round trip concretely. -/
def c6s : NavState :=
  { currentUrl := some "b", descriptor := none,
    history := [{ url := "a", descriptor := some c1dX }, { url := "b", descriptor := none }],
    historyIndex := 1, accessToken := some "t", refreshToken := none,
    screen := .active, urlInput := "b" }

/-- A GET endpoint with a path-parameter placeholder. -/
def c9ep : EndpointJs :=
  { operationId := some "get_user", method := some "GET", path := some "/users/\x7bid\x7d" }

/-- A POST endpoint with the same path template. -/
def c9epPost : EndpointJs :=
  { operationId := some "create_user", method := some "POST", path := some "/users/\x7bid\x7d" }

/-- Descriptor holding the two user endpoints. -/
def c9d : Payload :=
  { name := some "Users API", description := none, baseUrl := none,
    endpoints := some [c9ep, c9epPost] }

/-- A GET endpoint whose template contains only the placeholder of key a. -/
def c9xEp : EndpointJs :=
  { operationId := some "ep", method := some "GET", path := some "/\x7ba\x7d" }

/-- Descriptor holding that single endpoint. -/
def c9xd : Payload :=
  { name := some "n", description := none, baseUrl := none, endpoints := some [c9xEp] }

/-- Helper: `generateUI` only touches the screen and the auth tokens; the
navigation fields survive every branch, including the refresh-and-retry
recursion. -/
theorem generateUI_fields (d : Option Payload) (gens : List GenOutcome)
    (rr : Except String RefreshResult) (s : NavState) :
    (generateUI s d gens rr).history = s.history ∧
    (generateUI s d gens rr).historyIndex = s.historyIndex ∧
    (generateUI s d gens rr).currentUrl = s.currentUrl ∧
    (generateUI s d gens rr).descriptor = s.descriptor ∧
    (generateUI s d gens rr).urlInput = s.urlInput := by
  induction gens generalizing s with
  | nil =>
    unfold generateUI
    split <;> simp
  | cons g rest ih =>
    unfold generateUI
    split
    · simp
    · cases g with
      | ok h => simp
      | err m =>
        simp only
        split
        · split
          · split
            · split
              · exact (ih _)
              · simp
            · simp
          · simp
        · simp

/-- Helper: projection form of the history part of `generateUI_fields`. -/
theorem generateUI_history (d : Option Payload) (gens : List GenOutcome)
    (rr : Except String RefreshResult) (s : NavState) :
    (generateUI s d gens rr).history = s.history :=
  (generateUI_fields d gens rr s).1

/-- Helper: projection form of the index part of `generateUI_fields`. -/
theorem generateUI_historyIndex (d : Option Payload) (gens : List GenOutcome)
    (rr : Except String RefreshResult) (s : NavState) :
    (generateUI s d gens rr).historyIndex = s.historyIndex :=
  (generateUI_fields d gens rr s).2.1

/-- Helper: projection form of the current-URL part of `generateUI_fields`. -/
theorem generateUI_currentUrl (d : Option Payload) (gens : List GenOutcome)
    (rr : Except String RefreshResult) (s : NavState) :
    (generateUI s d gens rr).currentUrl = s.currentUrl :=
  (generateUI_fields d gens rr s).2.2.1

/-- Helper: projection form of the descriptor part of `generateUI_fields`. -/
theorem generateUI_descriptor (d : Option Payload) (gens : List GenOutcome)
    (rr : Except String RefreshResult) (s : NavState) :
    (generateUI s d gens rr).descriptor = s.descriptor :=
  (generateUI_fields d gens rr s).2.2.2.1

/-- Helper: a successful discovery makes `navigateTo` truncate the forward
part of the history when the index is not last, append the new entry, point
the index at the last entry, and commit URL and descriptor. -/
theorem navigateTo_success_fields (s : NavState) (url : String) (r : DiscResult)
    (gens : List GenOutcome) (rr : Except String RefreshResult) (h : r.success = true) :
    (navigateTo s url (.ok r) gens rr).history =
      (if s.historyIndex < (s.history.length : Int) - 1
        then s.history.take (s.historyIndex + 1).toNat else s.history)
      ++ [{ url := url, descriptor := r.descriptor }] ∧
    (navigateTo s url (.ok r) gens rr).historyIndex =
      (((navigateTo s url (.ok r) gens rr).history.length : Int)) - 1 ∧
    (navigateTo s url (.ok r) gens rr).currentUrl = some url ∧
    (navigateTo s url (.ok r) gens rr).descriptor = r.descriptor := by
  unfold navigateTo navStart navResume
  simp [h, generateUI_history, generateUI_historyIndex, generateUI_currentUrl,
    generateUI_descriptor]

/-- Helper: a rejected or unsuccessful discovery makes `navigateTo` show the
error screen and change nothing else. -/
theorem navigateTo_failure_eq (s : NavState) (url : String) (disc : Except String DiscResult)
    (gens : List GenOutcome) (rr : Except String RefreshResult)
    (h : (∃ e, disc = .error e) ∨ (∃ r, disc = .ok r ∧ r.success = false)) :
    navigateTo s url disc gens rr = { s with screen := .error } := by
  rcases h with ⟨e, he⟩ | ⟨r, hr, hs⟩
  · subst he; rfl
  · subst hr
    unfold navigateTo navStart navResume
    simp [hs]

/-- Helper: with a positive index, `handleBack` decrements the index,
restores the entry fields at the new index, and leaves history alone. -/
theorem handleBack_fields (s : NavState) (gens : List GenOutcome)
    (rr : Except String RefreshResult) (h : 0 < s.historyIndex) :
    (handleBack s gens rr).history = s.history ∧
    (handleBack s gens rr).historyIndex = s.historyIndex - 1 ∧
    (handleBack s gens rr).currentUrl =
      some ((s.history.getD (s.historyIndex - 1).toNat
        { url := "", descriptor := none }).url) ∧
    (handleBack s gens rr).descriptor =
      (s.history.getD (s.historyIndex - 1).toNat
        { url := "", descriptor := none }).descriptor := by
  unfold handleBack
  rw [if_pos h]
  simp [generateUI_history, generateUI_historyIndex, generateUI_currentUrl,
    generateUI_descriptor]

/-- Helper: with the index below the last entry, `handleForward` increments
the index, restores the entry fields at the new index, and leaves history
alone. -/
theorem handleForward_fields (s : NavState) (gens : List GenOutcome)
    (rr : Except String RefreshResult) (h : s.historyIndex < (s.history.length : Int) - 1) :
    (handleForward s gens rr).history = s.history ∧
    (handleForward s gens rr).historyIndex = s.historyIndex + 1 ∧
    (handleForward s gens rr).currentUrl =
      some ((s.history.getD (s.historyIndex + 1).toNat
        { url := "", descriptor := none }).url) ∧
    (handleForward s gens rr).descriptor =
      (s.history.getD (s.historyIndex + 1).toNat
        { url := "", descriptor := none }).descriptor := by
  unfold handleForward
  rw [if_pos h]
  simp [generateUI_history, generateUI_historyIndex, generateUI_currentUrl,
    generateUI_descriptor]

/-- C7: detection never fails outward; every discovery rejection yields the
html result with no descriptor, an unsuccessful or descriptor-less result
object also yields html, socket-agent mode is returned exactly for a
successful result carrying a descriptor, and in particular the error a 404
discovery probe produces is swallowed into the html result. -/
theorem c7_detect_never_fails_outward :
    (∀ msg : String, detectMode (.error msg) = { mode := "html", descriptor := none }) ∧
    (∀ res : DiscIpcResult, (detectMode (.ok res)).mode = "socket-agent" ↔
      (res.success = true ∧ res.descriptor.isSome = true)) ∧
    (∀ r : Except String DiscIpcResult,
      detectMode r = { mode := "html", descriptor := none } ∨
      ((detectMode r).mode = "socket-agent" ∧ (detectMode r).descriptor.isSome = true)) ∧
    (∀ baseUrl statusText : String, ∃ m : String,
      discoverSocketAgent baseUrl (.httpError 404 statusText) = .error m ∧
      detectMode (.error m) = { mode := "html", descriptor := none }) := by
  refine ⟨fun _ => rfl, fun res => ?_, fun r => ?_, fun b st => ?_⟩
  · unfold detectMode
    by_cases hs : res.success <;> by_cases hd : res.descriptor.isSome <;>
      simp [hs, hd]
  · cases r with
    | error e => exact Or.inl rfl
    | ok res =>
      unfold detectMode
      by_cases hs : res.success <;> by_cases hd : res.descriptor.isSome <;>
        simp [hs, hd]
  · refine ⟨"No Socket Agent API found at " ++ b ++
      ". Make sure it's a Socket Agent compliant API.", ?_, rfl⟩
    simp [discoverSocketAgent]

/-- C8: a well-formed discovery payload missing the name field or the
endpoints field makes `discoverSocketAgent` fail with the
invalid-descriptor error (the message the spec taxonomy calls
InvalidPayload); no descriptor value is produced. -/
theorem c8_missing_fields_invalid (baseUrl : String) (p : Payload)
    (h : p.name = none ∨ p.endpoints = none) :
    discoverSocketAgent baseUrl (.ok p) =
      .error "Discovery failed: Invalid Socket Agent descriptor: missing required fields" := by
  unfold discoverSocketAgent
  rcases h with h | h <;> simp [h, jsTruthyStr, jsTruthyList]

/-- Witness for C8 at a concrete payload missing its name. -/
theorem c8_missing_fields_invalid_witness :
    (({ name := none, description := none, baseUrl := none,
        endpoints := some [] } : Payload).name = none ∨
     ({ name := none, description := none, baseUrl := none,
        endpoints := some [] } : Payload).endpoints = none) ∧
    discoverSocketAgent "http://h"
      (.ok { name := none, description := none, baseUrl := none, endpoints := some [] }) =
      .error "Discovery failed: Invalid Socket Agent descriptor: missing required fields" :=
  ⟨Or.inl rfl, c8_missing_fields_invalid "http://h" _ (Or.inl rfl)⟩

/-- C4 counterexample: from a two-entry history at index 1, the home button
leaves the index at 1 (it does not jump to index 0) and clears the current
URL instead of replaying the first visited entry. -/
theorem c4_counterexample :
    (handleHome c4ex).historyIndex = 1 ∧
    ¬ (handleHome c4ex).historyIndex = 0 ∧
    (handleHome c4ex).currentUrl = none ∧
    ¬ (handleHome c4ex).currentUrl = some "a" := by
  decide

/-- C4 amended: the home button clears the current URL, descriptor and the
input field and shows the welcome screen; it neither moves the history index
nor appends to or truncates the history. -/
theorem c4_home_clears_to_welcome (s : NavState) :
    (handleHome s).history = s.history ∧
    (handleHome s).historyIndex = s.historyIndex ∧
    (handleHome s).currentUrl = none ∧
    (handleHome s).descriptor = none ∧
    (handleHome s).screen = .welcome ∧
    (handleHome s).urlInput = "" := by
  simp [handleHome]

/-- C1: evaluation of the untokenized code at the failing interleaving.
Navigation to X suspends at its discovery await, navigation to Y starts,
resolves and commits; when X's discovery later resolves, its continuation
carries no staleness token, so it overwrites the current URL and descriptor
Y committed and appends its own entry after Y's. -/
theorem c1_stale_resolution_overwrites :
    c1afterY.currentUrl = some "http://y" ∧
    c1afterY.descriptor = some c1dY ∧
    c1afterY.history = [{ url := "http://y", descriptor := some c1dY }] ∧
    c1final.currentUrl = some "http://x" ∧
    c1final.descriptor = some c1dX ∧
    c1final.history = [{ url := "http://y", descriptor := some c1dY },
                       { url := "http://x", descriptor := some c1dX }] ∧
    ¬ c1final.currentUrl = c1afterY.currentUrl := by
  decide

/-- C3 counterexample: a navigation whose discovery succeeds but whose UI
generation fails ends on the error screen with the new entry already
appended, so failure does not leave the history as it was. -/
theorem c3_counterexample :
    c3run.screen = .error ∧
    c3run.history = [{ url := "http://u", descriptor := some c3d }] ∧
    ¬ c3run.history = c3s0.history ∧
    c3run.historyIndex = 0 ∧
    ¬ c3run.historyIndex = c3s0.historyIndex := by
  decide

/-- C3 amended: a navigation whose discovery fails (rejected call or
unsuccessful result) shows the error screen and leaves everything else,
history included, exactly as it was; when discovery succeeds the entry is
appended before UI generation is attempted, and generation itself never
modifies history or index — on failure (missing access token, or a
generation error that is not an authentication failure) it only shows the
error screen, so the failed navigation's entry stays committed. -/
theorem c3_failure_screens_and_history :
    (∀ (s : NavState) (url e : String) (gens : List GenOutcome)
        (rr : Except String RefreshResult),
      navigateTo s url (.error e) gens rr = { s with screen := .error }) ∧
    (∀ (s : NavState) (url : String) (r : DiscResult) (gens : List GenOutcome)
        (rr : Except String RefreshResult), r.success = false →
      navigateTo s url (.ok r) gens rr = { s with screen := .error }) ∧
    (∀ (s : NavState) (d : Option Payload) (gens : List GenOutcome)
        (rr : Except String RefreshResult),
      (generateUI s d gens rr).history = s.history ∧
      (generateUI s d gens rr).historyIndex = s.historyIndex) ∧
    (∀ (s : NavState) (d : Option Payload) (gens : List GenOutcome)
        (rr : Except String RefreshResult), jsTruthyStr s.accessToken = false →
      (generateUI s d gens rr).screen = .error) ∧
    (∀ (s : NavState) (d : Option Payload) (msg : String) (rest : List GenOutcome)
        (rr : Except String RefreshResult), jsTruthyStr s.accessToken = true →
      jsIncludesL msg.data ("Authentication failed").data = false →
      (generateUI s d (.err msg :: rest) rr).screen = .error) := by
  refine ⟨fun s url e gens rr => rfl, fun s url r gens rr hr => ?_,
    fun s d gens rr => ⟨generateUI_history d gens rr s, generateUI_historyIndex d gens rr s⟩,
    fun s d gens rr ht => ?_, fun s d msg rest rr ht hm => ?_⟩
  · unfold navigateTo navResume navStart
    simp [hr]
  · unfold generateUI
    cases gens <;> simp [ht]
  · unfold generateUI
    simp [ht, hm]

/-- Witness for C3's amended theorem: a concrete unsuccessful discovery
leaves the concrete state unchanged except the error screen, and a concrete
non-authentication generation failure shows the error screen. -/
theorem c3_failure_screens_and_history_witness :
    (({ success := false, descriptor := none } : DiscResult).success = false ∧
     navigateTo c3s0 "http://u" (.ok { success := false, descriptor := none }) [] (.error "unused") =
       { c3s0 with screen := .error }) ∧
    (jsTruthyStr c3s0.accessToken = true ∧
     jsIncludesL ("generation exploded").data ("Authentication failed").data = false ∧
     (generateUI c3s0 (some c3d) [.err "generation exploded"] (.error "unused")).screen = .error) :=
  ⟨⟨rfl, c3_failure_screens_and_history.2.1 c3s0 "http://u"
      { success := false, descriptor := none } [] (.error "unused") rfl⟩,
   ⟨by decide, by decide,
    c3_failure_screens_and_history.2.2.2.2 c3s0 (some c3d) "generation exploded" []
      (.error "unused") (by decide) (by decide)⟩⟩

/-- C2 counterexample: in a descriptor whose first endpoint matches the
reference by path and whose second matches the same reference by
operationId, resolution returns the first (path-matching) endpoint, not the
operationId match — so the claimed criterion precedence does not hold. -/
theorem c2_counterexample :
    getEndpoint c2d "X" = some c2e1 ∧
    ¬ c2e1.operationId = some "X" ∧
    c2e1.path = some "X" ∧
    c2e2 ∈ c2d.endpoints.getD [] ∧
    c2e2.operationId = some "X" ∧
    ¬ getEndpoint c2d "X" = some c2e2 := by
  decide

/-- C2 amended: resolution scans the endpoint list in order and returns the
first endpoint matching the reference on any of operationId, path, or the
composite method:path string; there is no precedence among the three
criteria, so whichever matching endpoint comes first in the list wins. -/
theorem c2_first_listed_match_wins :
    (∀ (d : Payload) (ref : String) (ep : EndpointJs),
      getEndpoint d ref = some ep → epMatches ref ep = true) ∧
    (∀ (d : Payload) (ref : String) (pre post : List EndpointJs) (ep : EndpointJs),
      d.endpoints.getD [] = pre ++ ep :: post →
      epMatches ref ep = true →
      (∀ e ∈ pre, epMatches ref e = false) →
      getEndpoint d ref = some ep) := by
  constructor
  · intro d ref ep h
    exact List.find?_some h
  · intro d ref pre post ep hd hm hpre
    unfold getEndpoint
    rw [hd]
    clear hd
    induction pre with
    | nil => simp [List.find?, hm]
    | cons e es ih =>
      have he : epMatches ref e = false := hpre e (List.mem_cons_self e es)
      simp only [List.cons_append, List.find?, he]
      exact ih (fun e' he' => hpre e' (List.mem_cons_of_mem e he'))

/-- Witness for C2's amended theorem: with no earlier endpoint in the list,
the path-matching endpoint of the counterexample descriptor is returned. -/
theorem c2_first_listed_match_wins_witness :
    c2d.endpoints.getD [] = [] ++ c2e1 :: [c2e2] ∧
    epMatches "X" c2e1 = true ∧
    getEndpoint c2d "X" = some c2e1 :=
  ⟨rfl, by decide,
   c2_first_listed_match_wins.2 c2d "X" [] [c2e2] c2e1 rfl (by decide)
     (fun e he => absurd he (List.not_mem_nil e))⟩

/-- C5: every navigation operation preserves the history invariant
(-1 <= historyIndex < length history); a fresh successful navigation ends
with the index on the last entry, having first truncated all entries beyond
the previous index; and concretely, from history A, B, C at index 1,
navigating to D yields history A, B, D at index 2. -/
theorem c5_history_invariant_preserved :
    (∀ (s : NavState) (url : String) (r : DiscResult) (gens : List GenOutcome)
        (rr : Except String RefreshResult), r.success = true →
      Invariant (navigateTo s url (.ok r) gens rr) ∧
      (navigateTo s url (.ok r) gens rr).historyIndex =
        ((navigateTo s url (.ok r) gens rr).history.length : Int) - 1) ∧
    (∀ (s : NavState) (url : String) (disc : Except String DiscResult)
        (gens : List GenOutcome) (rr : Except String RefreshResult),
      ((∃ e, disc = .error e) ∨ (∃ r, disc = .ok r ∧ r.success = false)) →
      Invariant s → Invariant (navigateTo s url disc gens rr)) ∧
    (∀ (s : NavState) (gens : List GenOutcome) (rr : Except String RefreshResult),
      Invariant s → Invariant (handleBack s gens rr)) ∧
    (∀ (s : NavState) (gens : List GenOutcome) (rr : Except String RefreshResult),
      Invariant s → Invariant (handleForward s gens rr)) ∧
    (∀ s : NavState, Invariant s → Invariant (handleHome s)) ∧
    c5run.history = [{ url := "a", descriptor := none }, { url := "b", descriptor := none },
                     { url := "d", descriptor := some c5d }] ∧
    c5run.historyIndex = 2 := by
  refine ⟨?_, ?_, ?_, ?_, ?_, by decide, by decide⟩
  · intro s url r gens rr hr
    obtain ⟨h1, h2, _, _⟩ := navigateTo_success_fields s url r gens rr hr
    have hlen : 0 < (navigateTo s url (.ok r) gens rr).history.length := by
      rw [h1]; simp
    exact ⟨by unfold Invariant; omega, h2⟩
  · intro s url disc gens rr hfail hInv
    rw [navigateTo_failure_eq s url disc gens rr hfail]
    unfold Invariant at *
    simpa using hInv
  · intro s gens rr hInv
    by_cases hpos : 0 < s.historyIndex
    · obtain ⟨h1, h2, _, _⟩ := handleBack_fields s gens rr hpos
      unfold Invariant at *
      rw [h1, h2]
      omega
    · unfold handleBack
      rw [if_neg hpos]
      exact hInv
  · intro s gens rr hInv
    by_cases hlt : s.historyIndex < (s.history.length : Int) - 1
    · obtain ⟨h1, h2, _, _⟩ := handleForward_fields s gens rr hlt
      unfold Invariant at *
      rw [h1, h2]
      omega
    · unfold handleForward
      rw [if_neg hlt]
      exact hInv
  · intro s hInv
    unfold Invariant at *
    simpa [handleHome] using hInv

/-- Witness for C5: the preservation conjuncts applied at concrete states
with their hypotheses discharged by computation. -/
theorem c5_history_invariant_preserved_witness :
    (({ success := true, descriptor := some c5d } : DiscResult).success = true ∧
     Invariant (navigateTo c5s "d" (.ok { success := true, descriptor := some c5d })
       [.ok "d html"] (.error "unused"))) ∧
    (Invariant c5s ∧ Invariant (handleBack c5s [] (.error "unused"))) ∧
    (Invariant c5s ∧ Invariant (handleHome c5s)) :=
  ⟨⟨rfl, (c5_history_invariant_preserved.1 c5s "d"
      { success := true, descriptor := some c5d } [.ok "d html"] (.error "unused") rfl).1⟩,
   ⟨by decide, c5_history_invariant_preserved.2.2.1 c5s [] (.error "unused") (by decide)⟩,
   ⟨by decide, c5_history_invariant_preserved.2.2.2.2.1 c5s (by decide)⟩⟩

/-- C6: from any state with a positive in-range index, going back and then
forward restores the index to its pre-back value; neither step appends to or
truncates the history, and the replayed entry at that index carries the same
URL and descriptor content as before. -/
theorem c6_back_then_forward_roundtrip (s : NavState)
    (g1 g2 : List GenOutcome) (r1 r2 : Except String RefreshResult)
    (hpos : 0 < s.historyIndex) (hlt : s.historyIndex < (s.history.length : Int)) :
    (handleBack s g1 r1).history = s.history ∧
    (handleForward (handleBack s g1 r1) g2 r2).history = s.history ∧
    (handleForward (handleBack s g1 r1) g2 r2).historyIndex = s.historyIndex ∧
    (handleForward (handleBack s g1 r1) g2 r2).currentUrl =
      some ((s.history.getD s.historyIndex.toNat { url := "", descriptor := none }).url) ∧
    (handleForward (handleBack s g1 r1) g2 r2).descriptor =
      (s.history.getD s.historyIndex.toNat { url := "", descriptor := none }).descriptor := by
  obtain ⟨hb1, hb2, hb3, hb4⟩ := handleBack_fields s g1 r1 hpos
  have hguard : (handleBack s g1 r1).historyIndex <
      (((handleBack s g1 r1).history.length : Int)) - 1 := by
    rw [hb1, hb2]; omega
  obtain ⟨hf1, hf2, hf3, hf4⟩ := handleForward_fields (handleBack s g1 r1) g2 r2 hguard
  have hidx : (handleBack s g1 r1).historyIndex + 1 = s.historyIndex := by
    rw [hb2]; omega
  refine ⟨hb1, by rw [hf1, hb1], by rw [hf2, hidx], ?_, ?_⟩
  · rw [hf3, hidx, hb1]
  · rw [hf4, hidx, hb1]

/-- Witness for C6 at a concrete two-entry history at index 1. -/
theorem c6_back_then_forward_roundtrip_witness :
    (0 : Int) < c6s.historyIndex ∧ c6s.historyIndex < (c6s.history.length : Int) ∧
    (handleForward (handleBack c6s [.ok "h"] (.error "unused")) [.ok "h2"] (.error "unused")).historyIndex
      = c6s.historyIndex ∧
    (handleForward (handleBack c6s [.ok "h"] (.error "unused")) [.ok "h2"] (.error "unused")).history
      = c6s.history :=
  ⟨by decide, by decide,
   (c6_back_then_forward_roundtrip c6s [.ok "h"] [.ok "h2"] (.error "unused") (.error "unused")
     (by decide) (by decide)).2.2.1,
   (c6_back_then_forward_roundtrip c6s [.ok "h"] [.ok "h2"] (.error "unused") (.error "unused")
     (by decide) (by decide)).2.1⟩

/-- Helper: a list is a Boolean-level prefix of itself followed by anything. -/
theorem isPrefixOf_append_self (p r : List Char) : p.isPrefixOf (p ++ r) = true := by
  induction p with
  | nil => cases r <;> rfl
  | cons x xs ih => simp [List.isPrefixOf, ih]

/-- Helper: the includes test finds a pattern that occurs as an explicit
middle segment. -/
theorem jsIncludesL_of_mid (a pat r : List Char) :
    jsIncludesL (a ++ (pat ++ r)) pat = true := by
  induction a with
  | nil =>
    cases h : pat ++ r with
    | nil =>
      have hp : pat = [] := by
        cases pat with
        | nil => rfl
        | cons y ys => simp at h
      simp [jsIncludesL, h, hp]
    | cons x xs =>
      simp only [List.nil_append, h, jsIncludesL]
      rw [← h]
      simp [isPrefixOf_append_self]
  | cons x xs ih =>
    simp only [List.cons_append, jsIncludesL, List.append_eq]
    rw [ih]
    simp

/-- Helper: replacing the first occurrence of a brace-opened pattern in a
string whose prefix contains no opening brace rewrites exactly the explicit
middle occurrence and leaves the tail verbatim. -/
theorem jsReplaceFirst_mid (a t r v : List Char) (ha : '\x7b' ∉ a) :
    jsReplaceFirst (a ++ (('\x7b' :: t) ++ r)) ('\x7b' :: t) v = a ++ (v ++ r) := by
  induction a with
  | nil =>
    simp only [List.nil_append]
    have hpre : ('\x7b' :: t).isPrefixOf (('\x7b' :: t) ++ r) = true :=
      isPrefixOf_append_self _ _
    show jsReplaceFirst ('\x7b' :: (t ++ r)) ('\x7b' :: t) v = v ++ r
    unfold jsReplaceFirst
    rw [show ('\x7b' :: (t ++ r)) = ('\x7b' :: t) ++ r from rfl, if_pos hpre,
      List.drop_left]
  | cons x xs ih =>
    have hx : ('\x7b' == x) = false := by
      apply beq_eq_false_iff_ne.mpr
      intro hcon
      exact ha (hcon ▸ List.mem_cons_self x xs)
    simp only [List.cons_append]
    unfold jsReplaceFirst
    simp only [List.isPrefixOf, hx, Bool.false_and, Bool.false_eq_true, if_false,
      List.append_eq, List.cons_append]
    have ih2 := ih (fun hmem => ha (List.mem_cons_of_mem x hmem))
    simp only [List.cons_append] at ih2
    rw [ih2]

/-- Helper: string concatenation concatenates the underlying character
lists. -/
theorem data_append (x y : String) : (x ++ y).data = x.data ++ y.data := rfl

/-- Helper: the opening-brace string character data. -/
theorem braceL_data : ("\x7b" : String).data = ['\x7b'] := rfl

/-- Helper: the closing-brace string character data. -/
theorem braceR_data : ("\x7d" : String).data = ['\x7d'] := rfl

/-- C9 counterexample: with endpoint template containing only the
placeholder of key a, method GET, and params a maps to a brace text and b
maps to 1, the code classifies b as a path parameter (the first
substitution introduced a b placeholder into the evolving path), so b does
not become a query parameter as the claim requires for a key whose
placeholder is absent from the resolved template. -/
theorem c9_counterexample :
    (callAPI "http://h" "ep" [("a", "\x7bb\x7d"), ("b", "1")] (some c9xd)).queryParams = [] ∧
    (callAPI "http://h" "ep" [("a", "\x7bb\x7d"), ("b", "1")] (some c9xd)).url = "http://h/1" ∧
    (callAPI "http://h" "ep" [("a", "\x7bb\x7d"), ("b", "1")] (some c9xd)).method = "get" := by
  decide

/-- C9 amended: classification is decided against the progressively
substituted path at the moment each key is processed (in params order), not
against the original template: a key whose placeholder occurs in the
current path is substituted at its first occurrence and recorded as a path
parameter; otherwise the key becomes a query parameter when the effective
method is GET or DELETE and a body field for any other method. For the
claim's own example, path /users/(id) with params id and filter, id is
substituted and filter is a query parameter under GET and a body field
under POST. -/
theorem c9_progressive_classification :
    (∀ (method : String) (acc : ClassState) (kv : String × String),
      jsIncludesL acc.finalPath (("\x7b" ++ kv.1 ++ "\x7d").data) = true →
      classifyStep method acc kv =
        { acc with pathParams := acc.pathParams ++ [kv],
                   finalPath := jsReplaceFirst acc.finalPath
                     (("\x7b" ++ kv.1 ++ "\x7d").data) kv.2.data }) ∧
    (∀ (method : String) (acc : ClassState) (kv : String × String),
      jsIncludesL acc.finalPath (("\x7b" ++ kv.1 ++ "\x7d").data) = false →
      (method = "GET" ∨ method = "DELETE") →
      classifyStep method acc kv = { acc with queryParams := acc.queryParams ++ [kv] }) ∧
    (∀ (method : String) (acc : ClassState) (kv : String × String),
      jsIncludesL acc.finalPath (("\x7b" ++ kv.1 ++ "\x7d").data) = false →
      ¬ method = "GET" → ¬ method = "DELETE" →
      classifyStep method acc kv = { acc with bodyParams := acc.bodyParams ++ [kv] }) ∧
    callAPI "http://h" "get_user" [("id", "5"), ("filter", "x")] (some c9d) =
      { method := "get", url := "http://h/users/5", queryParams := [("filter", "x")],
        bodyParams := [], hasJsonContentType := false } ∧
    callAPI "http://h" "create_user" [("id", "5"), ("filter", "x")] (some c9d) =
      { method := "post", url := "http://h/users/5", queryParams := [],
        bodyParams := [("filter", "x")], hasJsonContentType := true } := by
  have hid : ∀ (acc : ClassState) (kv : String × String),
      jsIncludesL acc.finalPath (("\x7b" ++ kv.1 ++ "\x7d").data) = false →
      (jsIncludesL acc.finalPath (("\x7bid\x7d").data) && (kv.1 == "id")) = false := by
    intro acc kv h
    by_cases hk : kv.1 = "id"
    · rw [show (("\x7bid\x7d") : String) = "\x7b" ++ kv.1 ++ "\x7d" by rw [hk]; decide]
      rw [h]
      simp
    · rw [beq_eq_false_iff_ne.mpr hk]
      simp
  refine ⟨?_, ?_, ?_, by decide, by decide⟩
  · intro method acc kv h
    simp only [classifyStep]
    rw [h]
    simp
  · intro method acc kv h hm
    simp only [classifyStep]
    rw [h, hid acc kv h]
    rcases hm with hm | hm <;> rw [hm] <;> simp
  · intro method acc kv h hg hd
    simp only [classifyStep]
    rw [h, hid acc kv h]
    rw [beq_eq_false_iff_ne.mpr hg, beq_eq_false_iff_ne.mpr hd]
    simp

/-- Witness for C9's amended theorem: the three classification rules applied
at concrete accumulator states. -/
theorem c9_progressive_classification_witness :
    (jsIncludesL ("/x/\x7bk\x7d").data (("\x7b" ++ "k" ++ "\x7d").data) = true ∧
     classifyStep "GET" { pathParams := [], queryParams := [], bodyParams := [],
                          finalPath := ("/x/\x7bk\x7d").data } ("k", "9") =
       { pathParams := [("k", "9")], queryParams := [], bodyParams := [],
         finalPath := jsReplaceFirst ("/x/\x7bk\x7d").data
           (("\x7b" ++ "k" ++ "\x7d").data) ("9" : String).data }) ∧
    (jsIncludesL ("/x").data (("\x7b" ++ "q" ++ "\x7d").data) = false ∧
     classifyStep "GET" { pathParams := [], queryParams := [], bodyParams := [],
                          finalPath := ("/x").data } ("q", "1") =
       { pathParams := [], queryParams := [("q", "1")], bodyParams := [],
         finalPath := ("/x").data }) ∧
    (jsIncludesL ("/x").data (("\x7b" ++ "q" ++ "\x7d").data) = false ∧
     classifyStep "POST" { pathParams := [], queryParams := [], bodyParams := [],
                           finalPath := ("/x").data } ("q", "1") =
       { pathParams := [], queryParams := [], bodyParams := [("q", "1")],
         finalPath := ("/x").data }) :=
  ⟨⟨by decide, c9_progressive_classification.1 "GET" _ ("k", "9") (by decide)⟩,
   ⟨by decide, c9_progressive_classification.2.1 "GET" _ ("q", "1") (by decide) (Or.inl rfl)⟩,
   ⟨by decide, c9_progressive_classification.2.2.1 "POST" _ ("q", "1") (by decide)
      (by decide) (by decide)⟩⟩

/-- Helper: rebuilding a string from its character data is the identity. -/
theorem mk_data (s : String) : String.mk s.data = s := rfl

/-- C10: when the resolved path template contains the placeholder of the
params key more than once (an explicit occurrence after a brace-free prefix,
followed by further text containing another occurrence), `callAPI`
substitutes only the first occurrence: the concrete request URL carries the
value in place of the first occurrence and everything after it verbatim,
every later occurrence of the placeholder included. -/
theorem c10_substitutes_first_occurrence_only
    (base ref k v a b c : String) (ha : '\x7b' ∉ a.data) :
    (callAPI base ref [(k, v)]
      (some { name := some "svc", description := none, baseUrl := none,
              endpoints := some [{ operationId := some ref, method := some "GET",
                                   path := some (a ++ "\x7b" ++ k ++ "\x7d" ++ b ++
                                     "\x7b" ++ k ++ "\x7d" ++ c) }] })).url
    = jsStripTrailingSlash base ++ (a ++ v ++ b ++ "\x7b" ++ k ++ "\x7d" ++ c) := by
  have hpat : (("\x7b" ++ k ++ "\x7d") : String).data = '\x7b' :: (k.data ++ ['\x7d']) := by
    simp [data_append, braceL_data, braceR_data]
  have hdata : (a ++ "\x7b" ++ k ++ "\x7d" ++ b ++ "\x7b" ++ k ++ "\x7d" ++ c).data
      = a.data ++ (('\x7b' :: (k.data ++ ['\x7d'])) ++
        (b.data ++ ('\x7b' :: (k.data ++ ('\x7d' :: c.data))))) := by
    simp [data_append, braceL_data, braceR_data, List.append_assoc]
  have hne : ((a ++ "\x7b" ++ k ++ "\x7d" ++ b ++ "\x7b" ++ k ++ "\x7d" ++ c) == "") = false := by
    apply beq_eq_false_iff_ne.mpr
    intro hcon
    have hd := congrArg String.data hcon
    rw [hdata] at hd
    simp at hd
  have hge : getEndpoint
      { name := some "svc", description := none, baseUrl := none,
        endpoints := some [{ operationId := some ref, method := some "GET",
                             path := some (a ++ "\x7b" ++ k ++ "\x7d" ++ b ++
                               "\x7b" ++ k ++ "\x7d" ++ c) }] } ref
      = some { operationId := some ref, method := some "GET",
               path := some (a ++ "\x7b" ++ k ++ "\x7d" ++ b ++
                 "\x7b" ++ k ++ "\x7d" ++ c) } := by
    simp [getEndpoint, epMatches, List.find?]
  have hinc : jsIncludesL (a ++ "\x7b" ++ k ++ "\x7d" ++ b ++ "\x7b" ++ k ++ "\x7d" ++ c).data
      (("\x7b" ++ k ++ "\x7d") : String).data = true := by
    rw [hpat, hdata]
    exact jsIncludesL_of_mid _ _ _
  have hrep : jsReplaceFirst
      (a ++ "\x7b" ++ k ++ "\x7d" ++ b ++ "\x7b" ++ k ++ "\x7d" ++ c).data
      (("\x7b" ++ k ++ "\x7d") : String).data v.data
      = a.data ++ (v.data ++ (b.data ++ ('\x7b' :: (k.data ++ ('\x7d' :: c.data))))) := by
    rw [hpat, hdata]
    exact jsReplaceFirst_mid _ _ _ _ ha
  have hfinal : (a ++ v ++ b ++ "\x7b" ++ k ++ "\x7d" ++ c).data
      = a.data ++ (v.data ++ (b.data ++ ('\x7b' :: (k.data ++ ('\x7d' :: c.data))))) := by
    simp [data_append, braceL_data, braceR_data, List.append_assoc]
  simp only [callAPI]
  rw [hge]
  simp only [jsOrStr, hne, Bool.false_eq_true, if_false, List.foldl_cons, List.foldl_nil,
    classifyStep]
  rw [hinc]
  simp only [Bool.true_or, if_true]
  rw [hrep, ← hfinal, mk_data]

/-- Witness for C10 at the template /users/(id)/posts/(id) with a single
id parameter valued 5. -/
theorem c10_substitutes_first_occurrence_only_witness :
    '\x7b' ∉ ("/users/" : String).data ∧
    (callAPI "http://h" "get" [("id", "5")]
      (some { name := some "svc", description := none, baseUrl := none,
              endpoints := some [{ operationId := some "get", method := some "GET",
                                   path := some ("/users/" ++ "\x7b" ++ "id" ++ "\x7d" ++
                                     "/posts/" ++ "\x7b" ++ "id" ++ "\x7d" ++ "") }] })).url
    = jsStripTrailingSlash "http://h" ++
        ("/users/" ++ "5" ++ "/posts/" ++ "\x7b" ++ "id" ++ "\x7d" ++ "") :=
  ⟨by decide, c10_substitutes_first_occurrence_only "http://h" "get" "id" "5"
    "/users/" "/posts/" "" (by decide)⟩

end SocketBrowser
